import Mathlib

/-!
Verification development for the `pdrun` container supervisor.

The Rust sources are embedded shallowly: instants (`chrono::DateTime<Utc>`)
become unix seconds (`Int`), fallible operations become `Option`/`Except`,
and the outcomes of external subprocesses become explicit parameters of the
embedded functions.  Each definition mirrors one function of the source
tree (`src/config.rs`, `src/process.rs`, `src/main.rs`, `src/restic.rs`,
`src/image_info.rs`); the doc comment of each definition names the source
location it embeds.
-/

namespace Pdrun

/-! ### Time model

`chrono::DateTime<Utc>` is modelled as unix seconds (`Int`), at second
granularity (sub-second precision never matters to the scheduling code).
chrono dates range from year -262143 to year 262143 (`NaiveDate::MIN` /
`NaiveDate::MAX`); arithmetic that would leave this range either panics
(`Add<TimeDelta>`) or returns `None` (`checked_add_days`). -/

/-- Days from 1970-01-01 to the civil date y-m-d (proleptic Gregorian),
the standard civil-from-days algorithm. Used only to pin down the numeric
bounds of chrono's representable range. -/
def daysFromCivil (y : Int) (m : Nat) (d : Nat) : Int :=
  let y2 : Int := if m ≤ 2 then y - 1 else y
  let era : Int := Int.fdiv y2 400
  let yoe : Int := y2 - era * 400
  let mp : Nat := if m ≤ 2 then m + 9 else m - 3
  let doy : Int := ((153 * mp + 2) / 5 + (d - 1) : Nat)
  let doe : Int := yoe * 365 + Int.fdiv yoe 4 - Int.fdiv yoe 100 + doy
  era * 146097 + doe - 719468

/-- Last representable second of `chrono::DateTime<Utc>`
(`NaiveDate::MAX` = 262143-12-31, at 23:59:59). -/
def MAX_UTC : Int := daysFromCivil 262143 12 31 * 86400 + 86399

/-- First representable second of `chrono::DateTime<Utc>`
(`NaiveDate::MIN` = -262143-01-01). -/
def MIN_UTC : Int := daysFromCivil (-262143) 1 1 * 86400

/-- Whether an instant is representable as a `chrono::DateTime<Utc>`. -/
def inRangeUtc (t : Int) : Bool := decide (MIN_UTC ≤ t) && decide (t ≤ MAX_UTC)

/-- `chrono::DateTime::checked_add_days` specialised to UTC: in UTC one
calendar day is exactly 86400 seconds; the addition returns `none` when the
result would leave chrono's representable range. -/
def checked_add_days (t : Int) (n : Nat) : Option Int :=
  if inRangeUtc (t + 86400 * n) then some (t + 86400 * n) else none

/-- `chrono::Duration::to_std` followed by `.ok()`: converts a signed
duration (seconds) to an unsigned `std::time::Duration`; fails (`none`)
exactly when the signed duration is negative. -/
def toStd (d : Int) : Option Nat := if 0 ≤ d then some d.toNat else none

/-! ### Interval (src/config.rs, `enum Interval` and `Interval::next`,
lines 64-115) -/

/-- Model of `cron::Schedule`: `nextAfter now` is
`schedule.after_owned(now).next()`, the first occurrence strictly after
`now` (`none` when the schedule is exhausted).  The `strictly_after` field
records the cron crate's contract that `after` yields instants strictly
after its argument. -/
structure Schedule where
  nextAfter : Int → Option Int
  strictly_after : ∀ now t, nextAfter now = some t → now < t

/-- `config::Interval` (src/config.rs lines 64-70). -/
inductive Interval where
  | Hourly : Interval
  | Daily : Interval
  | Weekly : Interval
  | Custom : Schedule → Interval

/-- Result of computing the candidate instant (the `let next = match self`
block of `Interval::next`, src/config.rs lines 102-107).  `chrono`'s plain
`+ Duration::hours(1)` (the `Hourly` arm) panics when the result leaves the
representable range; the panic is modelled by the explicit `panicked`
constructor.  `Daily`/`Weekly` use `checked_add_days`, whose failure is an
ordinary `cand none`. -/
inductive CandResult where
  | panicked : CandResult
  | cand : Option Int → CandResult
  deriving DecidableEq

/-- The candidate computation of `Interval::next` (src/config.rs lines
102-107): `Hourly` adds one hour to `last.unwrap_or(now)`, `Daily`/`Weekly`
add 1/7 calendar days with `checked_add_days`, `Custom` takes the first
cron occurrence strictly after `now`. -/
def intervalCandidate (i : Interval) (last : Option Int) (now : Int) : CandResult :=
  match i with
  | .Hourly =>
      let base := last.getD now
      if inRangeUtc (base + 3600) then .cand (some (base + 3600)) else .panicked
  | .Daily => .cand (checked_add_days (last.getD now) 1)
  | .Weekly => .cand (checked_add_days (last.getD now) 7)
  | .Custom s => .cand (s.nextAfter now)

/-- Result of `Interval::next`: either a panic (chrono overflow in the
`Hourly` arm) or the function's `Option<Duration>` return value. -/
inductive NextResult where
  | panicked : NextResult
  | ret : Option Nat → NextResult
  deriving DecidableEq

/-- `Interval::next` (src/config.rs lines 96-115): compute the candidate,
then `Some(next) if next >= now => (next - now).to_std().ok()`,
`Some(_) => Some(Duration::ZERO)`, `None => None`. -/
def Interval.next (i : Interval) (last : Option Int) (now : Int) : NextResult :=
  match intervalCandidate i last now with
  | .panicked => .panicked
  | .cand (some n) => if now ≤ n then .ret (toStd (n - now)) else .ret (some 0)
  | .cand none => .ret none

/-- The fixed period, in seconds, of the non-cron intervals (`none` for
cron-style schedules, which have no single period). -/
def periodSeconds : Interval → Option Int
  | .Hourly => some 3600
  | .Daily => some 86400
  | .Weekly => some 604800
  | .Custom _ => none

/-! ### next_backup_time (src/main.rs lines 128-139)

`next_backup_time` uses an `impl Add<Interval> for DateTime<Utc>` that is
not under src/ (only this caller is).  Modelled from the spec:
"candidate = (last or now) + period" for the fixed intervals; the cron
case of that impl is not needed by any claim and is left out of the model
(`unmodelled`).  Note that the conclusions drawn below do not depend on
the details of this modelling: the guard of the first match arm is
`last + interval < now` and its body is
`(last + interval).signed_duration_since(now)`, so whatever `DateTime`
value `last + interval` denotes, the body's duration is strictly negative
whenever the arm is taken. -/

/-- Result of `next_backup_time`: `.panicked` models the
`.to_std().unwrap()` panic on a negative duration. -/
inductive NbtResult where
  | panicked : NbtResult
  | dur : Nat → NbtResult
  | unmodelled : NbtResult
  deriving DecidableEq

/-- `next_backup_time` (src/main.rs lines 128-139):
`Some(last) if last + interval < now => (last + interval) - now`, otherwise
`(now + interval) - now`; then `.to_std().unwrap()`. -/
def next_backup_time (i : Interval) (last_backup : Option Int) (now : Int) : NbtResult :=
  match periodSeconds i with
  | none => .unmodelled
  | some p =>
      let delta : Int :=
        match last_backup with
        | some last => if last + p < now then last + p - now else p
        | none => p
      match toStd delta with
      | some d => .dur d
      | none => .panicked

/-! ### Claims C7, C9, C2 (Interval / scheduling) -/

/-- Claim C7: for all `last ≤ now` and every interval policy,
`Interval::next` never returns a negative duration and `now` plus the
returned duration is never strictly before `now`; whenever a candidate
instant strictly before `now` arises (the catch-up case) the result is the
zero sentinel. -/
theorem c7_interval_monotonic (i : Interval) (last : Option Int) (now : Int)
    (hle : ∀ l, last = some l → l ≤ now) :
    (∀ d : Nat, Interval.next i last now = .ret (some d) →
      0 ≤ (d : Int) ∧ now ≤ now + (d : Int)) ∧
    (∀ c : Int, intervalCandidate i last now = .cand (some c) → c < now →
      Interval.next i last now = .ret (some 0)) := by
  constructor
  · intro d _
    refine ⟨Int.ofNat_nonneg d, ?_⟩
    have : (0 : Int) ≤ (d : Int) := Int.ofNat_nonneg d
    omega
  · intro c hc hlt
    unfold Interval.next
    rw [hc]
    have : ¬ now ≤ c := not_le.mpr hlt
    simp [this]

/-- Witness for C7 at a concrete catch-up input: hourly policy,
`last = 0`, `now = 7200`; the candidate `3600` is before `now`, and
`next` returns the zero sentinel. -/
theorem c7_interval_monotonic_witness :
    Interval.next .Hourly (some 0) 7200 = .ret (some 0) :=
  (c7_interval_monotonic .Hourly (some 0) 7200
    (by intro l hl; cases hl; decide)).2 3600 (by decide) (by decide)

/-- Counterexample to claim C9: `Interval::next` for the fixed `Daily`
policy does return `None` (the `checked_add_days` of chrono fails) when
`last` is the last representable instant, so the `None` branch is not
reachable only for cron-style schedules; and the `Hourly` arm panics
there (chrono's unchecked `+ Duration::hours(1)`). -/
theorem c9_counterexample :
    Interval.next .Daily (some MAX_UTC) MAX_UTC = .ret none ∧
    Interval.next .Hourly (some MAX_UTC) MAX_UTC = .panicked := by
  constructor <;> decide

/-- The final `match next` step of `Interval::next` always yields some
duration when a candidate instant exists. -/
theorem next_finish_some (n now : Int) :
    ∃ d : Nat,
      (if now ≤ n then NextResult.ret (toStd (n - now)) else NextResult.ret (some 0)) =
        NextResult.ret (some d) := by
  by_cases h : now ≤ n
  · exact ⟨(n - now).toNat, by simp [h, toStd, Int.sub_nonneg.mpr h]⟩
  · exact ⟨0, by simp [h]⟩

/-- Claim C9 (amended): for the fixed-interval policies, whenever the
candidate `(last or now) + period` stays inside chrono's representable
range, `Interval::next` is total: it returns `Some` duration and does not
panic; `None` and the panic are reachable only at the extreme boundary of
the representable range (or, for `None`, for cron-style schedules). -/
theorem c9_fixed_interval_total (i : Interval) (p : Int) (last : Option Int) (now : Int)
    (hp : periodSeconds i = some p)
    (hrange : inRangeUtc (last.getD now + p) = true) :
    ∃ d : Nat, Interval.next i last now = .ret (some d) := by
  cases i with
  | Custom s => simp [periodSeconds] at hp
  | Hourly =>
      simp only [periodSeconds, Option.some.injEq] at hp
      subst hp
      simp only [Interval.next, intervalCandidate, hrange, if_true]
      exact next_finish_some (last.getD now + 3600) now
  | Daily =>
      simp only [periodSeconds, Option.some.injEq] at hp
      subst hp
      simp only [Interval.next, intervalCandidate, checked_add_days, Nat.cast_one,
        mul_one, hrange, if_true]
      exact next_finish_some (last.getD now + 86400) now
  | Weekly =>
      simp only [periodSeconds, Option.some.injEq] at hp
      subst hp
      have h7 : (86400 : Int) * ((7 : Nat) : Int) = 604800 := by norm_num
      simp only [Interval.next, intervalCandidate, checked_add_days, h7, hrange, if_true]
      exact next_finish_some (last.getD now + 604800) now

/-- Witness for the amended C9: `Daily` with no previous trigger at
`now = 0` yields some duration. -/
theorem c9_fixed_interval_total_witness :
    ∃ d : Nat, Interval.next .Daily none 0 = .ret (some d) :=
  c9_fixed_interval_total .Daily 86400 none 0 rfl (by decide)

/-- Claim C2, evaluated at a failing input (code bug): in the catch-up
case `last + period < now`, `Interval::next` does return the zero duration
as the claim states, but the orchestration loop's own `next_backup_time`
computes the strictly negative duration `(last + interval) - now` and
panics in `.to_std().unwrap()`.  Concretely with the hourly policy,
`last = 0` (epoch) and `now = 7200` (epoch + 2h). -/
theorem c2_catchup_code_bug :
    Interval.next .Hourly (some 0) 7200 = .ret (some 0) ∧
    next_backup_time .Hourly (some 0) 7200 = .panicked := by
  constructor <;> decide

/-! ### Supervised process: exit monitor and wait (src/process.rs)

External effects (the child's exit, signal delivery, timers) are modelled
as explicit parameters collected in `MonitorEnv`; the monitor's control
flow (src/process.rs lines 127-156) is embedded as a pure function that
also records which escalation actions it performed. -/

/-- The outcome of observing a child process: its raw exit code (`Int`;
`0` is success, matching `ExitStatus::success`), or an error string (an
`anyhow` error). -/
abbrev ProcResult := Except String Int

/-- `anyhow`'s `.context(msg)`: prefixes the context onto the error,
leaves successes unchanged. -/
def contextE (r : Except String α) (msg : String) : Except String α :=
  match r with
  | .ok a => .ok a
  | .error e => .error (msg ++ ": " ++ e)

/-- Escalation actions the exit monitor can perform on the child. -/
inductive MAction where
  | sendSigterm : MAction
  | startKill : MAction
  deriving DecidableEq

/-- Outcomes of the external world as seen by `monitor_exit_status`
(src/process.rs lines 127-156):
* `shutdownRaceWin = some r`: `shutdown.wrap_cancel(child.wait())`
  resolved with the child's natural exit `r` before shutdown was raised;
  `none`: the shutdown signal won the race.
* `sigtermResult`: result of `kill(child_pid, SIGTERM)`.
* `graceWait = some r`: the child exited within the 5-second grace period
  with result `r`; `none`: the 5-second timeout elapsed.
* `startKillResult`: result of `child.start_kill()`.
* `finalWait`: result of the final `child.wait()` after the kill. -/
structure MonitorEnv where
  shutdownRaceWin : Option ProcResult
  sigtermResult : Except String Unit
  graceWait : Option ProcResult
  startKillResult : Except String Unit
  finalWait : ProcResult

/-- `monitor_exit_status` (src/process.rs lines 127-156), returning the
list of escalation actions performed and the recorded exit result.  The
`?` on `kill(..)` (line 137) propagates a SIGTERM-delivery failure out of
the function immediately. -/
def monitor_exit_status (env : MonitorEnv) : List MAction × ProcResult :=
  match env.shutdownRaceWin with
  | some r => ([], contextE r "Getting exit status")
  | none =>
      match env.sigtermResult with
      | .error e => ([.sendSigterm], .error ("Sending SIGTERM: " ++ e))
      | .ok () =>
          match env.graceWait with
          | some r => ([.sendSigterm], contextE r "Getting exit status")
          | none =>
              match env.startKillResult with
              | .error e =>
                  ([.sendSigterm, .startKill],
                    .error ("Start killing child process: " ++ e))
              | .ok () =>
                  ([.sendSigterm, .startKill],
                    contextE env.finalWait "Waiting to exit")

/-- The exit result the monitor task records into the exit slot. -/
def monitorResult (env : MonitorEnv) : ProcResult := (monitor_exit_status env).2

/-! ### Exit slot and `wait` (src/process.rs lines 64-119)

The exit slot is the `tokio::sync::watch` channel created in
`Process::new` (line 64).  The spawned monitor task (lines 71-99) is
straight-line code that ends in exactly one
`exit_sender.send_replace(Some(status))`, so the task's write trace is the
one-element list of its recorded result. -/

/-- `watch::Sender::send_replace` on the slot: overwrites the stored
value. -/
def sendReplace (slot : Option ProcResult) (v : ProcResult) : Option ProcResult :=
  match slot with
  | _ => some v

/-- The sequence of writes the exit-monitor task performs on the exit
slot: exactly the single `send_replace(Some(status))` at src/process.rs
line 98. -/
def exitSlotWrites (env : MonitorEnv) : List ProcResult := [monitorResult env]

/-- The slot's contents after the first `k` scheduling points of the
monitor task: each write in the task's trace is applied in order, starting
from the `None` the channel is created with (line 64). -/
def slotAfter (env : MonitorEnv) (k : Nat) : Option ProcResult :=
  ((exitSlotWrites env).take k).foldl sendReplace none

/-- `Process::wait` (src/process.rs lines 108-119): suspends until the
slot is populated (modelled as `none` = still suspended), then returns
`Ok(status)` for a recorded `Ok` and a wrapped error for a recorded
`Err`. -/
def Process.wait (slot : Option ProcResult) : Option ProcResult :=
  match slot with
  | none => none
  | some (.ok status) => some (.ok status)
  | some (.error e) => some (.error ("Child process exited with error: " ++ e))

/-- Claim C8: the exit slot transitions from empty to populated exactly
once (the monitor task is its only writer and performs exactly one write),
and every `wait()` observation at or after the write — arbitrary
scheduling points `i, j ≥ 1`, covering repeated and concurrent calls —
returns the same terminal value, determined by the monitor's recorded
result. -/
theorem c8_exit_slot_idempotent (env : MonitorEnv) (i j : Nat)
    (hi : 1 ≤ i) (hj : 1 ≤ j) :
    (exitSlotWrites env).length = 1 ∧
    slotAfter env 0 = none ∧
    Process.wait (slotAfter env i) = Process.wait (slotAfter env j) ∧
    (∃ v, Process.wait (slotAfter env i) = some v) := by
  have hslot : ∀ k : Nat, 1 ≤ k → slotAfter env k = some (monitorResult env) := by
    intro k hk
    unfold slotAfter exitSlotWrites
    have : [monitorResult env].take k = [monitorResult env] := by
      cases k with
      | zero => omega
      | succ n => simp [List.take]
    rw [this]
    rfl
  refine ⟨rfl, rfl, ?_, ?_⟩
  · rw [hslot i hi, hslot j hj]
  · rw [hslot i hi]
    cases hr : monitorResult env with
    | ok s => exact ⟨.ok s, by simp [Process.wait]⟩
    | error e => exact ⟨.error ("Child process exited with error: " ++ e), by simp [Process.wait]⟩

/-- Witness for C8 at a concrete environment (a child that exits
naturally with status 0) and scheduling points `i = 1`, `j = 5`. -/
theorem c8_exit_slot_idempotent_witness :
    (exitSlotWrites ⟨some (.ok 0), .ok (), none, .ok (), .ok 0⟩).length = 1 ∧
    slotAfter ⟨some (.ok 0), .ok (), none, .ok (), .ok 0⟩ 0 = none ∧
    Process.wait (slotAfter ⟨some (.ok 0), .ok (), none, .ok (), .ok 0⟩ 1) =
      Process.wait (slotAfter ⟨some (.ok 0), .ok (), none, .ok (), .ok 0⟩ 5) ∧
    (∃ v, Process.wait (slotAfter ⟨some (.ok 0), .ok (), none, .ok (), .ok 0⟩ 1) = some v) :=
  c8_exit_slot_idempotent ⟨some (.ok 0), .ok (), none, .ok (), .ok 0⟩ 1 5
    (by decide) (by decide)

/-- Counterexample to claim C4: when the shutdown signal wins the race and
delivering SIGTERM fails, `monitor_exit_status` performs no kill — the
`?` on `kill(..)` (src/process.rs line 137) aborts the escalation, so the
forced kill is never attempted, contradicting the claim that a kill is
still tried. -/
theorem c4_counterexample :
    MAction.startKill ∉
      (monitor_exit_status ⟨none, .error "EPERM", none, .ok (), .ok 0⟩).1 := by
  decide

/-- Claim C4 (amended): when the shutdown signal wins the race and
SIGTERM delivery fails, `monitor_exit_status` aborts the escalation with
that error (which the monitor task then logs and records into the exit
slot); only the SIGTERM send is attempted, and no forced kill occurs. -/
theorem c4_sigterm_failure_aborts (env : MonitorEnv) (e : String)
    (hrace : env.shutdownRaceWin = none)
    (hsig : env.sigtermResult = .error e) :
    monitor_exit_status env = ([.sendSigterm], .error ("Sending SIGTERM: " ++ e)) ∧
    MAction.startKill ∉ (monitor_exit_status env).1 := by
  have h : monitor_exit_status env = ([.sendSigterm], .error ("Sending SIGTERM: " ++ e)) := by
    unfold monitor_exit_status
    rw [hrace, hsig]
  refine ⟨h, ?_⟩
  rw [h]
  simp

/-- Witness for the amended C4 at the concrete environment of the
counterexample. -/
theorem c4_sigterm_failure_aborts_witness :
    monitor_exit_status ⟨none, .error "EPERM", none, .ok (), .ok 0⟩ =
      ([.sendSigterm], .error ("Sending SIGTERM: " ++ "EPERM")) ∧
    MAction.startKill ∉
      (monitor_exit_status ⟨none, .error "EPERM", none, .ok (), .ok 0⟩).1 :=
  c4_sigterm_failure_aborts ⟨none, .error "EPERM", none, .ok (), .ok 0⟩ "EPERM" rfl rfl

/-! ### JSON values produced by the external tools

A small JSON value model for the outputs parsed by `serde_json` in
src/image_info.rs and src/restic.rs.  chrono's serde support deserializes
a `DateTime<Utc>` from an RFC 3339 string; the constructor `time t`
stands for a JSON string that chrono parses successfully as the UTC
instant `t` (seconds), and `str` for every other JSON string — the
datetime lexing itself is outside the scope of the claims. -/

inductive Json where
  | null : Json
  | bool : Bool → Json
  | num : Int → Json
  | str : String → Json
  | time : Int → Json
  | arr : List Json → Json
  | obj : List (String × Json) → Json

/-- First value bound to a field name in a JSON object. -/
def lookupField (fs : List (String × Json)) (name : String) : Option Json :=
  match fs with
  | [] => none
  | (k, v) :: rest => if k = name then some v else lookupField rest name

/-! ### image_creation_time (src/image_info.rs lines 8-41) -/

/-- `struct ImageInfo { #[serde(rename = "Created")] created: DateTime<Utc> }`
(src/image_info.rs lines 8-12). -/
structure ImageInfo where
  created : Int
  deriving DecidableEq

/-- serde deserialization of one `ImageInfo` record: requires a JSON
object with a `Created` field holding a datetime string. -/
def deserializeImageInfo (j : Json) : Except String ImageInfo :=
  match j with
  | .obj fs =>
      match lookupField fs "Created" with
      | some (.time t) => .ok ⟨t⟩
      | some _ => .error "invalid type for field Created"
      | none => .error "missing field Created"
  | _ => .error "expected a map"

/-- serde deserialization of `Vec<ImageInfo>`: a JSON array each of whose
elements deserializes. -/
def deserializeImageInfoList (j : Json) : Except String (List ImageInfo) :=
  match j with
  | .arr xs => xs.mapM deserializeImageInfo
  | _ => .error "expected an array"

/-- `image_creation_time` (src/image_info.rs lines 14-41), parametrized by
the outcomes of the external `podman inspect` call: `waitResult` is
`child.wait()` (exit code; its error carries the "Waiting for child
process" context), `stdoutRead` is the text read from the child's stdout
parsed as a JSON value (its error carries the "Reading output" context).
A non-success exit returns `Ok(None)`; unparseable output is a hard error
with the "Deserialize image info" context; an empty array yields
`Ok(None)`.  (The `cmd.spawn().expect(..)` on line 22 panics on spawn
failure; spawn success is a precondition of this model.) -/
def image_creation_time (waitResult : Except String Int)
    (stdoutRead : Except String Json) : Except String (Option Int) :=
  match contextE waitResult "Waiting for child process" with
  | .error e => .error e
  | .ok status =>
      if status ≠ 0 then .ok none
      else
        match contextE stdoutRead "Reading output" with
        | .error e => .error e
        | .ok json =>
            match contextE (deserializeImageInfoList json) "Deserialize image info" with
            | .error e => .error e
            | .ok results => .ok ((results.head?).map ImageInfo.created)

/-! ### start_update (src/main.rs lines 190-223) -/

/-- Actions of the update workflow, in program order. -/
inductive UAction where
  | spawnPull : UAction
  | terminateApp : UAction
  | spawnNewApp : UAction
  deriving DecidableEq

/-- Outcomes of the external world as seen by `start_update`: the two
`image_creation_time` query results, the pull-process spawn result and
exit-slot result, the application's exit-slot result for
`terminate_and_wait`, and the respawn result. -/
structure UpdateEnv where
  oldQuery : Except String (Option Int)
  pullSpawn : Except String Unit
  pullWait : ProcResult
  newQuery : Except String (Option Int)
  terminateResult : ProcResult
  appSpawn : Except String Unit

/-- `start_update` (src/main.rs lines 190-223): query the old creation
time (fatal on error), pull the image, re-query, and when
`new_time != old_time` terminate-and-wait the application and respawn it;
returns whether a fresh application process was produced. -/
def start_update (env : UpdateEnv) : List UAction × Except String Bool :=
  match contextE env.oldQuery "Getting image creation time" with
  | .error e => ([], .error e)
  | .ok old_time =>
      match contextE env.pullSpawn "Starting update process" with
      | .error e => ([.spawnPull], .error e)
      | .ok () =>
          match contextE ((Process.wait (some env.pullWait)).getD (.error "unreachable"))
              "Waiting for update process" with
          | .error e => ([.spawnPull], .error e)
          | .ok _status =>
              match contextE env.newQuery "Getting image creation time" with
              | .error e => ([.spawnPull], .error e)
              | .ok new_time =>
                  if new_time ≠ old_time then
                    match contextE
                        ((Process.wait (some env.terminateResult)).getD (.error "unreachable"))
                        "Terminating app" with
                    | .error e => ([.spawnPull, .terminateApp], .error e)
                    | .ok _ =>
                        match contextE env.appSpawn "Starting app process" with
                        | .error e => ([.spawnPull, .terminateApp, .spawnNewApp], .error e)
                        | .ok () => ([.spawnPull, .terminateApp, .spawnNewApp], .ok true)
                  else ([.spawnPull], .ok false)

/-- Counterexample to claim C6: an image record that is present but
malformed (an object with no `Created` field, i.e. the inspect output
`[{}]`) is not treated as "unknown" — `image_creation_time` surfaces a
hard deserialization error, which `start_update`'s
`.context("Getting image creation time")?` then propagates as fatal. -/
theorem c6_counterexample :
    image_creation_time (.ok 0) (.ok (.arr [.obj []])) =
      .error ("Deserialize image info: " ++ "missing field Created") := by
  rfl

/-- Claim C6 (amended): a non-success exit of the inspect tool and an
empty JSON array (missing image record) yield the "unknown" value
`Ok(None)`, and the update workflow treats an unknown old time followed by
a known new time as "assume changed" (it restarts the application); but a
malformed image record is surfaced as a hard error (with the "Deserialize
image info" context), not as "unknown" (and a spawn failure panics via
`.expect`). -/
theorem c6_unknown_image_time (status : Int) (j : Json) (e : String)
    (tval c code2 : Int)
    (hfail : status ≠ 0)
    (hbad : deserializeImageInfoList j = .error e) :
    image_creation_time (.ok status) (.ok j) = .ok none ∧
    image_creation_time (.ok 0) (.ok (.arr [])) = .ok none ∧
    start_update ⟨.ok none, .ok (), .ok c, .ok (some tval), .ok code2, .ok ()⟩ =
      ([.spawnPull, .terminateApp, .spawnNewApp], .ok true) ∧
    image_creation_time (.ok 0) (.ok j) = .error ("Deserialize image info: " ++ e) := by
  refine ⟨?_, rfl, rfl, ?_⟩
  · unfold image_creation_time contextE
    simp [hfail]
  · have hred : image_creation_time (.ok 0) (.ok j) =
        (match contextE (deserializeImageInfoList j) "Deserialize image info" with
          | .error e => .error e
          | .ok results => .ok ((results.head?).map ImageInfo.created)) := rfl
    rw [hred, hbad]
    rfl

/-- Witness for the amended C6: inspect exiting with code 1 yields
unknown, an unknown-then-known pair of queries restarts the application,
and the malformed record `[{}]` yields the deserialization error. -/
theorem c6_unknown_image_time_witness :
    image_creation_time (.ok 1) (.ok (.arr [.obj []])) = .ok none ∧
    image_creation_time (.ok 0) (.ok (.arr [])) = .ok none ∧
    start_update ⟨.ok none, .ok (), .ok 0, .ok (some 100), .ok 0, .ok ()⟩ =
      ([.spawnPull, .terminateApp, .spawnNewApp], .ok true) ∧
    image_creation_time (.ok 0) (.ok (.arr [.obj []])) =
      .error ("Deserialize image info: " ++ "missing field Created") :=
  c6_unknown_image_time 1 (.arr [.obj []]) "missing field Created" 100 0 0
    (by decide) rfl

/-! ### get_latest_snapshot_time (src/restic.rs lines 12-15 and 55-81)
and its consumption in run (src/main.rs lines 243-254) -/

/-- `struct Snapshot { time: DateTime<Utc> }` (src/restic.rs lines
12-15). -/
structure Snapshot where
  time : Int
  deriving DecidableEq

/-- serde deserialization of one `Snapshot` record, under the `.ok()`
(Option-valued) regime of `get_latest_snapshot_time`. -/
def deserializeSnapshot (j : Json) : Option Snapshot :=
  match j with
  | .obj fs =>
      match lookupField fs "time" with
      | some (.time t) => some ⟨t⟩
      | _ => none
  | _ => none

/-- serde deserialization of `Vec<Snapshot>` with `.ok()`. -/
def deserializeSnapshots (j : Json) : Option (List Snapshot) :=
  match j with
  | .arr xs => xs.mapM deserializeSnapshot
  | _ => none

/-- `get_latest_snapshot_time` (src/restic.rs lines 55-81), parametrized
by the outcome of the `restic snapshots --json --latest 1` subprocess:
`toolOutput = none` models a spawn or output failure (each `.ok()?`);
`some j` is its stdout parsed as JSON.  Absence of a previous snapshot is
the empty array, giving `None` through
`snapshots.into_iter().next().map(|s| s.time)`. -/
def get_latest_snapshot_time (toolOutput : Option Json) : Option Int :=
  match toolOutput with
  | none => none
  | some out =>
      match deserializeSnapshots out with
      | none => none
      | some snaps => (snaps.head?).map Snapshot.time

/-- `anyhow`'s `Context` impl for `Option`: `opt.context(msg)?` turns
`None` into the error `msg`. -/
def anyhowOptionContext (o : Option α) (msg : String) : Except String α :=
  match o with
  | some a => .ok a
  | none => .error msg

/-- The last-backup-time step of `run` (src/main.rs lines 246-250) when a
backup policy is configured:
`restic::get_latest_snapshot_time(backup).await.context("Getting latest backup time")?`. -/
def run_fetch_last_backup (toolOutput : Option Json) : Except String Int :=
  anyhowOptionContext (get_latest_snapshot_time toolOutput) "Getting latest backup time"

/-- Claim C5, evaluated at the failing input (code bug): on a fresh
repository the snapshot listing succeeds with the empty array, the restic
layer correctly reports the absence as `None` — and `run`'s
`.context("Getting latest backup time")?` converts that `None` into a
fatal error, terminating the supervisor instead of continuing to schedule
the first backup. -/
theorem c5_no_snapshot_code_bug :
    get_latest_snapshot_time (some (.arr [])) = none ∧
    run_fetch_last_backup (some (.arr [])) = .error "Getting latest backup time" := by
  constructor <;> rfl

/-! ### Restore workflow (src/main.rs lines 74-93) -/

/-- The `restore` function of src/main.rs (lines 74-93), parametrized by
whether the backup source directory exists, the result of spawning the
restore process (`Process::new`), and the exit result recorded in that
process's exit slot.  The function waits for the process but never
inspects the returned `ExitStatus`: a successful wait — whatever the exit
code — lets startup continue. -/
def restoreStep (srcExists : Bool) (spawnResult : Except String Unit)
    (slotResult : ProcResult) : Except String Unit :=
  if srcExists then .ok ()
  else
    match contextE spawnResult "Starting restoring process" with
    | .error e => .error e
    | .ok () =>
        match contextE ((Process.wait (some slotResult)).getD (.error "unreachable"))
            "Waiting for restoring process" with
        | .error e => .error e
        | .ok _status => .ok ()

/-- Counterexample to claim C3: a restore process that is spawned
successfully and exits with the non-zero status 1 does not fail startup —
`restore` discards the exit status and returns success, so startup
continues to launching the application. -/
theorem c3_counterexample :
    restoreStep false (.ok ()) (.ok 1) = .ok () := by
  rfl

/-- Claim C3 (amended): the restore workflow fails startup on a spawn
error and on a wait error (an `Err` recorded in the exit slot), but a
restore process that exits with a non-zero status is not detected —
`restore` ignores the exit status entirely and startup continues for
every exit code. -/
theorem c3_restore_error_handling (spawnResult : Except String Unit)
    (slotResult : ProcResult) :
    (∀ e, spawnResult = .error e →
      restoreStep false spawnResult slotResult =
        .error ("Starting restoring process: " ++ e)) ∧
    (∀ e, spawnResult = .ok () → slotResult = .error e →
      restoreStep false spawnResult slotResult =
        .error ("Waiting for restoring process: " ++
          ("Child process exited with error: " ++ e))) ∧
    (∀ code : Int, spawnResult = .ok () → slotResult = .ok code →
      restoreStep false spawnResult slotResult = .ok ()) := by
  refine ⟨?_, ?_, ?_⟩
  · intro e he
    subst he
    rfl
  · intro e hs hr
    subst hs
    subst hr
    rfl
  · intro code hs hr
    subst hs
    subst hr
    rfl

/-- Witness for the amended C3: a recorded wait error fails startup, a
non-zero exit status (code 2) does not. -/
theorem c3_restore_error_handling_witness :
    restoreStep false (.ok ()) (.error "lost child") =
      .error ("Waiting for restoring process: " ++
        ("Child process exited with error: " ++ "lost child")) ∧
    restoreStep false (.ok ()) (.ok 2) = .ok () :=
  ⟨(c3_restore_error_handling (.ok ()) (.error "lost child")).2.1 "lost child" rfl rfl,
    (c3_restore_error_handling (.ok ()) (.ok 2)).2.2 2 rfl rfl⟩

/-! ### Shutdown token (async_shutdown::Shutdown) and the backup workflow
(src/main.rs lines 154-188, src/process.rs lines 121-124)

`async_shutdown::Shutdown` is a reference-counted handle to one shared
shutdown state: `clone()` yields a handle to the *same* state, and
`shutdown()` raises that shared state for every holder.  Handles are
modelled as indices into a store of flags; cloning a handle is reusing
its index.  `main` creates exactly one token (`Shutdown::new()`,
src/main.rs line 62) and passes `shutdown.clone()` everywhere, so every
`Process` in the program holds index 0. -/

/-- The store of shutdown-token states (one flag per `Shutdown::new`). -/
structure World where
  tokens : List Bool
  deriving DecidableEq

/-- `Shutdown::shutdown()` on the handle `h`: raises the shared flag. -/
def raiseToken (w : World) (h : Nat) : World := ⟨w.tokens.set h true⟩

/-- `Shutdown::is_raised` for the handle `h`. -/
def tokenRaised (w : World) (h : Nat) : Bool := w.tokens.getD h false

/-- The `Shutdown` handle stored inside a `Process`
(src/process.rs lines 22-25, 102-105): the handle the process was
constructed with. -/
structure ProcHandle where
  shutdown : Nat
  deriving DecidableEq

/-- `Process::terminate_and_wait` (src/process.rs lines 121-124), its
effect on the shutdown store: `self.shutdown.shutdown()` raises the
process's stored handle — which is a clone of, and therefore shares state
with, the token it was constructed with — then waits (waiting does not
change the store). -/
def Process.terminate_and_wait (w : World) (p : ProcHandle) : World :=
  raiseToken w p.shutdown

/-- `Shutdown::wrap_cancel(child.wait())` as raced in
`monitor_exit_status`: when the token is already raised at the time the
monitor starts, the race resolves to cancellation (`none`) without
waiting for the child's natural exit. -/
def raceOutcome (raised : Bool) (childNatural : Option ProcResult) : Option ProcResult :=
  if raised then none else childNatural

/-- `config::BackupStrategy` (src/config.rs lines 49-56). -/
inductive BackupStrategy where
  | StopApp : BackupStrategy
  | Live : BackupStrategy
  deriving DecidableEq

/-- `impl Default for BackupStrategy` (src/config.rs lines 58-62). -/
def BackupStrategy.default : BackupStrategy := .StopApp

/-- Actions of the backup workflow, in program order. -/
inductive BAction where
  | terminateApp : BAction
  | spawnBackup : BAction
  | spawnNewApp : BAction
  deriving DecidableEq

/-- Outcomes of the external world as seen by `start_backup`: the result
of spawning the backup process, the exit result recorded in the backup
process's exit slot, and the result of respawning the application. -/
structure BackupEnv where
  backupSpawn : Except String Unit
  backupWait : ProcResult
  appSpawn : Except String Unit

/-- `start_backup` (src/main.rs lines 154-188).  Inputs: the configured
strategy (`backup.strategy`), the external outcomes, the shutdown store,
the handle `globalH` passed in as `shutdown` (in `run`, always a clone of
the single global token), and the current application process.  Outputs:
the store after the workflow's stop step, the actions performed in order,
and `Ok(fresh?)` — whether the returned process is a freshly spawned
application — or the workflow's error.  Mirrors:
`strategy.unwrap_or_default() == StopApp`, the best-effort
`let _ = app_process.terminate_and_wait()`, the `.success()` check with
`bail!("Failed backing up app")`, and the conditional respawn. -/
def start_backup (strategy : Option BackupStrategy) (env : BackupEnv)
    (w : World) (globalH : Nat) (app : ProcHandle) :
    World × List BAction × Except String Bool :=
  let stopping := strategy.getD BackupStrategy.default = BackupStrategy.StopApp
  let w1 := if stopping then Process.terminate_and_wait w app else w
  let pre : List BAction := if stopping then [.terminateApp] else []
  match contextE env.backupSpawn "Starting backup process" with
  | .error e => (w1, pre ++ [.spawnBackup], .error e)
  | .ok () =>
      match contextE ((Process.wait (some env.backupWait)).getD (.error "unreachable"))
          "Waiting for backup process" with
      | .error e => (w1, pre ++ [.spawnBackup], .error e)
      | .ok code =>
          if code ≠ 0 then (w1, pre ++ [.spawnBackup], .error "Failed backing up app")
          else if stopping then
            match contextE env.appSpawn "Starting app process" with
            | .error e => (w1, pre ++ [.spawnBackup, .spawnNewApp], .error e)
            | .ok () => (w1, pre ++ [.spawnBackup, .spawnNewApp], .ok true)
          else (w1, pre ++ [.spawnBackup], .ok false)

/-- Claim C1, evaluated at the failing input (code bug): `main` creates
one shutdown token (index 0, store `[false]`) and passes clones of it to
every `Process::new`, so the application process's stored handle is the
global token itself.  When `start_backup` (default strategy) calls
`terminate_and_wait()` on the application process, the global token is
raised — and the backup process, spawned next with another clone of the
same token, starts with its shutdown already raised, so its exit
monitor's `wrap_cancel` race resolves to cancellation immediately instead
of letting it run normally. -/
theorem c1_global_shutdown_code_bug :
    tokenRaised (start_backup none ⟨.ok (), .ok 0, .ok ()⟩ ⟨[false]⟩ 0 ⟨0⟩).1 0 = true ∧
    raceOutcome
      (tokenRaised (start_backup none ⟨.ok (), .ok 0, .ok ()⟩ ⟨[false]⟩ 0 ⟨0⟩).1 0)
      (some (.ok 0)) = none := by
  constructor <;> rfl

/-- Claim C10: omitting the backup strategy behaves exactly as the
explicit `StopApp` strategy (the default is `StopApp`, not `Live`), and in
the successful case the workflow terminates the application before
spawning the backup process and spawns a fresh application process after
the backup succeeds. -/
theorem c10_default_strategy_stopapp (env : BackupEnv) (w : World)
    (globalH : Nat) (app : ProcHandle)
    (hspawn : env.backupSpawn = .ok ())
    (hwait : env.backupWait = .ok 0)
    (happ : env.appSpawn = .ok ()) :
    start_backup none env w globalH app =
      start_backup (some .StopApp) env w globalH app ∧
    (start_backup none env w globalH app).2 =
      ([.terminateApp, .spawnBackup, .spawnNewApp], .ok true) := by
  obtain ⟨bs, bw, as_⟩ := env
  simp only at hspawn hwait happ
  subst hspawn hwait happ
  exact ⟨rfl, rfl⟩

/-- Witness for C10 at the all-successful concrete environment. -/
theorem c10_default_strategy_stopapp_witness :
    start_backup none ⟨.ok (), .ok 0, .ok ()⟩ ⟨[false]⟩ 0 ⟨0⟩ =
      start_backup (some .StopApp) ⟨.ok (), .ok 0, .ok ()⟩ ⟨[false]⟩ 0 ⟨0⟩ ∧
    (start_backup none ⟨.ok (), .ok 0, .ok ()⟩ ⟨[false]⟩ 0 ⟨0⟩).2 =
      ([.terminateApp, .spawnBackup, .spawnNewApp], .ok true) :=
  c10_default_strategy_stopapp ⟨.ok (), .ok 0, .ok ()⟩ ⟨[false]⟩ 0 ⟨0⟩ rfl rfl rfl

end Pdrun
